import Mathlib

/-!
Verification of the order-lifecycle and proposal-negotiation core of the
style-symphony marketplace.  The persistence layer is the Express backend
embedded in `src/types/index.ts` (lines 176-2627): each endpoint is a pure
function from the current table contents and the request body to an HTTP
status together with the new table contents.  The React pages
(`RequestDetails.tsx`, `ManageOrder.tsx`, `Payment.tsx`, `Messages.tsx`) are
embedded as compositions of those endpoint functions, reflecting only their
server-visible effects; axios rejects on any non-2xx status (so a failed call
aborts the handler), while plain `fetch` does not reject, which the handlers
below model faithfully.
-/

namespace StyleSymphony

/-- HTTP response statuses produced by the backend routes. -/
inductive Http where
  | ok
  | created
  | badRequest
  | notFound
  deriving DecidableEq, Repr

/-- JavaScript truthiness of an optional string (`if (status)`):
`undefined` and the empty string are falsy. -/
def jsTruthyStr : Option String → Bool
  | none => false
  | some s => s != ""

/-- JavaScript truthiness of an optional numeric id (`if (!request_id)`):
`undefined` and `0` are falsy. -/
def jsTruthyNat : Option Nat → Bool
  | none => false
  | some n => n != 0

/-- JavaScript truthiness of an optional amount (`if (!price)`):
`undefined` and `0` are falsy. -/
def jsTruthyRat : Option Rat → Bool
  | none => false
  | some q => q != 0

/-- A row of the `designer_proposals` table
(columns from the INSERT in `POST /api/designer-proposals`). -/
structure ProposalRow where
  proposal_id : Nat
  request_id : Nat
  merchant_id : Nat
  price : Rat
  status : String
  deriving DecidableEq, Repr

/-- A row of the `customization_requests` table
(columns from the INSERT in `POST /api/customization-requests`). -/
structure RequestRow where
  request_id : Nat
  user_id : Nat
  status : String
  description : String
  design_images : List String
  due_date : String
  priority : String
  updated_at : Nat
  deriving DecidableEq, Repr

/-- A row of the `chat` table
(columns from the INSERT in `POST /api/chat`). -/
structure ChatRow where
  sender_id : Nat
  receiver_id : Nat
  message : String
  status : String
  deriving DecidableEq, Repr

/-- A row of the `payments` table
(columns from the INSERT in `POST /api/payments`). -/
structure PaymentRow where
  user_id : Nat
  merchant_id : Nat
  order_id : Nat
  amount : Rat
  payment_method : String
  payment_type : String
  status : String
  transaction_id : Option String
  deriving DecidableEq, Repr

/-- The shared persistent store of the backend. -/
structure Store where
  proposals : List ProposalRow
  requests : List RequestRow
  chats : List ChatRow
  payments : List PaymentRow
  deriving DecidableEq, Repr

/-- Body of `PUT /api/designer-proposals/:proposalId`; `none` is an absent
(`undefined`) field. -/
structure PutProposalBody where
  price : Option Rat
  status : Option String
  deriving Repr

/-- Body of `POST /api/designer-proposals`. -/
structure PostProposalBody where
  request_id : Option Nat
  merchant_id : Option Nat
  price : Option Rat
  status : Option String
  deriving Repr

/-- Body of `PUT /api/customization-requests/:requestId`. -/
structure PutRequestBody where
  status : Option String
  description : Option String
  design_images : Option (List String)
  due_date : Option String
  priority : Option String
  deriving Repr

/-- Body of `POST /api/chat`. -/
structure PostChatBody where
  sender_id : Option Nat
  receiver_id : Option Nat
  message : Option String
  status : Option String
  deriving Repr

/-- Body of `POST /api/payments`. -/
structure PostPaymentBody where
  user_id : Option Nat
  merchant_id : Option Nat
  order_id : Option Nat
  amount : Option Rat
  payment_method : Option String
  payment_type : Option String
  status : Option String
  transaction_id : Option String
  deriving Repr

/-- Allowed proposal statuses in the backend
(`["Pending", "Accepted", "Cancelled"]` in `types/index.ts:1630,1679`). -/
def proposalStatusWhitelist : List String := ["Pending", "Accepted", "Cancelled"]

/-- Allowed request statuses in the backend
(`["Pending", "Accepted", "Completed"]` in `types/index.ts:1172,1296`). -/
def requestStatusWhitelist : List String := ["Pending", "Accepted", "Completed"]

/-- Allowed payment statuses in the backend (`types/index.ts:2049`). -/
def paymentStatusWhitelist : List String := ["Pending", "Completed", "Failed"]

/-- Allowed payment types in the backend (`types/index.ts:2057`). -/
def paymentTypeWhitelist : List String := ["Customer Payment", "Merchant Payout"]

/-- `PUT /api/designer-proposals/:proposalId` (`types/index.ts:1661-1727`).
Builds the update set from the supplied `price` (when not `undefined`) and
`status` (when truthy, validated against the whitelist, else 400); 400 when
the update set is empty, 404 when no row matches, otherwise updates the one
matching row.  It never consults the proposal's request, nor the other
proposals of the same request. -/
def putDesignerProposal (db : List ProposalRow) (pid : Nat) (body : PutProposalBody) :
    Http × List ProposalRow :=
  if jsTruthyStr body.status = true ∧ body.status.getD "" ∉ proposalStatusWhitelist then
    (Http.badRequest, db)
  else if body.price.isNone ∧ jsTruthyStr body.status = false then
    (Http.badRequest, db)
  else if db.all (fun r => r.proposal_id != pid) then
    (Http.notFound, db)
  else
    (Http.ok, db.map fun r =>
      if r.proposal_id = pid then
        { r with
          price := body.price.getD r.price,
          status := if jsTruthyStr body.status then body.status.getD r.status else r.status }
      else r)

/-- `POST /api/designer-proposals` (`types/index.ts:1617-1658`).
Requires truthy `request_id`, `merchant_id`, `price`; the status (defaulted to
"Pending") must be whitelisted; then inserts unconditionally — there is no
check that the request is open nor that the designer has no prior proposal. -/
def postDesignerProposal (db : List ProposalRow) (newId : Nat) (body : PostProposalBody) :
    Http × List ProposalRow :=
  if ¬(jsTruthyNat body.request_id = true ∧ jsTruthyNat body.merchant_id = true ∧
      jsTruthyRat body.price = true) then
    (Http.badRequest, db)
  else if body.status.getD "Pending" ∉ proposalStatusWhitelist then
    (Http.badRequest, db)
  else
    (Http.created, db ++ [{ proposal_id := newId,
                            request_id := body.request_id.getD 0,
                            merchant_id := body.merchant_id.getD 0,
                            price := body.price.getD 0,
                            status := body.status.getD "Pending" }])

/-- `PUT /api/customization-requests/:requestId` (`types/index.ts:1286-1370`).
A truthy `status` must belong to the whitelist, else 400; `updated_at = NOW()`
is always pushed so the update set is never empty; 404 when no row matches,
otherwise updates the matching row. -/
def putCustomizationRequest (db : List RequestRow) (rid : Nat) (body : PutRequestBody)
    (now : Nat) : Http × List RequestRow :=
  if jsTruthyStr body.status = true ∧ body.status.getD "" ∉ requestStatusWhitelist then
    (Http.badRequest, db)
  else if db.all (fun r => r.request_id != rid) then
    (Http.notFound, db)
  else
    (Http.ok, db.map fun r =>
      if r.request_id = rid then
        { r with
          status := if jsTruthyStr body.status then body.status.getD r.status else r.status,
          description := body.description.getD r.description,
          design_images := body.design_images.getD r.design_images,
          due_date := body.due_date.getD r.due_date,
          priority := body.priority.getD r.priority,
          updated_at := now }
      else r)

/-- `POST /api/chat` (`types/index.ts:2267-2300`).  Requires truthy
`sender_id`, `receiver_id`, `message`, then inserts the message with status
defaulted to "sent" — there is no authorization check of any kind. -/
def postChat (db : List ChatRow) (body : PostChatBody) : Http × List ChatRow :=
  if ¬(jsTruthyNat body.sender_id = true ∧ jsTruthyNat body.receiver_id = true ∧
      jsTruthyStr body.message = true) then
    (Http.badRequest, db)
  else
    (Http.created, db ++ [{ sender_id := body.sender_id.getD 0,
                            receiver_id := body.receiver_id.getD 0,
                            message := body.message.getD "",
                            status := body.status.getD "sent" }])

/-- `POST /api/payments` (`types/index.ts:2027-2089`).  Requires truthy
`user_id`, `merchant_id`, `order_id`, `amount`, `payment_method`,
`payment_type`; validates the status and payment-type enums; then inserts.
It never reads a timeline update and never compares `amount` to anything. -/
def postPayment (db : List PaymentRow) (body : PostPaymentBody) : Http × List PaymentRow :=
  if ¬(jsTruthyNat body.user_id = true ∧ jsTruthyNat body.merchant_id = true ∧
      jsTruthyNat body.order_id = true ∧ jsTruthyRat body.amount = true ∧
      jsTruthyStr body.payment_method = true ∧ jsTruthyStr body.payment_type = true) then
    (Http.badRequest, db)
  else if body.status.getD "Pending" ∉ paymentStatusWhitelist then
    (Http.badRequest, db)
  else if body.payment_type.getD "" ∉ paymentTypeWhitelist then
    (Http.badRequest, db)
  else
    (Http.created, db ++ [{ user_id := body.user_id.getD 0,
                            merchant_id := body.merchant_id.getD 0,
                            order_id := body.order_id.getD 0,
                            amount := body.amount.getD 0,
                            payment_method := body.payment_method.getD "",
                            payment_type := body.payment_type.getD "",
                            status := body.status.getD "Pending",
                            transaction_id := body.transaction_id }])

/-- Error taxonomy of the specified core (spec §7). -/
inductive CoreError where
  | validationError
  | authorizationError
  | conflictError
  | notFoundError
  deriving DecidableEq, Repr

/-- A TimelineUpdate record (`TimelineUpdate` interface in `types/index.ts:54-74`;
the `/api/timeline` store itself has no backend route in the repository). -/
structure TimelineRow where
  requestId : Nat
  status : String
  message : String
  timestamp : Nat
  paymentRequired : Bool
  paymentAmount : Option Rat
  paymentStatus : String
  deriving DecidableEq, Repr

/-- The status values already recorded for a request, in timeline order. -/
def timelineStatuses (tl : List TimelineRow) (rid : Nat) : List String :=
  (tl.filter fun u => u.requestId == rid).map (fun u => u.status)

/-- Modelled from the spec: the backend route `POST /api/timeline` that
`handleAddTimelineUpdate` (RequestDetails.tsx:221, ManageOrder.tsx:93) posts to
is absent from the repository sources; §4.3 defines `addUpdate(requestId,
status, message, paymentRequired, paymentAmount?)` as failing with
ConflictError when `status` already exists in the timeline for this requestId,
and otherwise appending a new TimelineUpdate with `timestamp = now` and
`paymentStatus = paymentRequired ? pending : not_required`. -/
def addUpdate (tl : List TimelineRow) (rid : Nat) (st msg : String)
    (paymentRequired : Bool) (paymentAmount : Option Rat) (now : Nat) :
    Except CoreError (List TimelineRow) :=
  if st ∈ timelineStatuses tl rid then
    Except.error CoreError.conflictError
  else
    Except.ok (tl ++ [{ requestId := rid,
                        status := st,
                        message := msg,
                        timestamp := now,
                        paymentRequired := paymentRequired,
                        paymentAmount := paymentAmount,
                        paymentStatus := if paymentRequired then "pending" else "not_required" }])

/-- Modelled from the spec: the repository has no Messaging Gate — `POST
/api/chat` performs no authorization.  §4.4 defines `canMessage(userA, userB)`
as true iff an accepted proposal joins a request owned by one of the two users
to the other user as designer (`merchant_id` in the backend tables). -/
def canMessage (s : Store) (a b : Nat) : Bool :=
  s.proposals.any fun p =>
    p.status == "Accepted" &&
      s.requests.any fun r =>
        r.request_id == p.request_id &&
          ((r.user_id == a && p.merchant_id == b) || (r.user_id == b && p.merchant_id == a))

/-- `handleAcceptProposal` (RequestDetails.tsx:138-194), server-visible effect.
It PUTs `{ status: "accepted" }` (lowercase) to the proposal endpoint; axios
rejects on a non-2xx status, so a failure aborts the handler in its catch
block.  On success it would look the proposal up in the client-side list and
PUT `{ status: "assigned", ... }` to the request endpoint (the extra fields
`acceptedProposalId`, `acceptedPrice`, `designerId`, `designerName` are not
read by that endpoint at all).  Sibling proposals are rejected only in React
local state — no backend call is made for them. -/
def handleAcceptProposal (s : Store) (clientProposals : List ProposalRow)
    (pid rid now : Nat) : Store × Bool :=
  let r1 := putDesignerProposal s.proposals pid { price := none, status := some "accepted" }
  if r1.1 ≠ Http.ok then
    ({ s with proposals := r1.2 }, false)
  else
    match clientProposals.find? (fun p => p.proposal_id == pid) with
    | none => ({ s with proposals := r1.2 }, true)
    | some _ =>
      let r2 := putCustomizationRequest s.requests rid
        { status := some "assigned", description := none, design_images := none,
          due_date := none, priority := none } now
      ({ s with proposals := r1.2, requests := r2.2 }, r2.1 = Http.ok)

/-- `handleSubmitProposal` (RequestDetails.tsx:95-136), server-visible effect.
If the client-side proposal list already contains any proposal by this
designer (whatever its status) the handler returns after a toast, without
calling the backend.  Otherwise it POSTs a body with camelCase keys
`{ requestId, price, estimatedTime, message }`; the endpoint destructures
`request_id` and `merchant_id`, which are therefore absent. -/
def handleSubmitProposal (s : Store) (clientProposals : List ProposalRow)
    (userId requestId : Nat) (price : Rat) (newId : Nat) : Store × Bool :=
  if clientProposals.any (fun p => p.merchant_id == userId) then
    (s, false)
  else
    let r := postDesignerProposal s.proposals newId
      { request_id := none, merchant_id := none, price := some price, status := none }
    ({ s with proposals := r.2 }, r.1 = Http.created)

/-- `handleAddTimelineUpdate` (RequestDetails.tsx:216-268), server-visible
effect.  It POSTs the update (no payment fields) to the spec-modelled
`/api/timeline` route via plain `fetch`, which does not reject on an error
status, then — only when the status is "delivered" — PUTs
`{ status: "completed" }` (lowercase) to the request endpoint; a rejection of
that PUT is swallowed by the inner catch block (which merely reverts React
local state). -/
def handleAddTimelineUpdateRD (s : Store) (tl : List TimelineRow) (rid : Nat)
    (st msg : String) (now : Nat) : Store × List TimelineRow :=
  let tl2 := match addUpdate tl rid st msg false none now with
    | Except.ok t => t
    | Except.error _ => tl
  if st = "delivered" then
    let r := putCustomizationRequest s.requests rid
      { status := some "completed", description := none, design_images := none,
        due_date := none, priority := none } now
    ({ s with requests := r.2 }, tl2)
  else
    (s, tl2)

/-- The milestone payment policy of the `TimelineUpdateForm` onSubmit wrapper
in ManageOrder.tsx:223-241: "stitched" and "fitting" require payment of 25% of
`acceptedPrice || 0`, "delivered" requires payment of another 25%, every other
stage requires none. -/
def manageOrderStagePayment (acceptedPrice : Option Rat) (st : String) :
    Bool × Option Rat :=
  let start : Bool × Option Rat := (false, none)
  let mid : Bool × Option Rat :=
    if st = "stitched" ∨ st = "fitting" then
      (true, some (acceptedPrice.getD 0 * (1 / 4)))
    else start
  if st = "delivered" then
    (true, some (acceptedPrice.getD 0 * (1 / 4)))
  else mid

/-- The six custom stages ManageOrder.tsx:243-250 passes to the form. -/
def manageOrderStages : List String :=
  ["assigned", "stitched", "dyed", "fitting", "out_for_delivery", "delivered"]

/-- Total of the per-stage payment amounts the ManageOrder form would generate
across the full timeline (a stage without payment contributes 0). -/
def manageOrderGeneratedTotal (acceptedPrice : Option Rat) : Rat :=
  (manageOrderStages.map fun st =>
    ((manageOrderStagePayment acceptedPrice st).2).getD 0).sum

/-- The four lines of the "Payment Schedule" card (ManageOrder.tsx:253-281),
each 25% of `acceptedPrice || 0`. -/
def paymentScheduleCard (acceptedPrice : Option Rat) : List Rat :=
  [acceptedPrice.getD 0 * (1 / 4), acceptedPrice.getD 0 * (1 / 4),
   acceptedPrice.getD 0 * (1 / 4), acceptedPrice.getD 0 * (1 / 4)]

/-- `handleMakePayment` (Payment.tsx:94-131), server-visible effect.  It POSTs
`{ requestId, timelineUpdateId, amount }` to `/api/payments` via plain
`fetch`; the endpoint destructures `user_id`, `merchant_id`, `order_id`,
`payment_method`, `payment_type`, which are all absent from that body, and the
handler never checks `response.ok`, so it reports success regardless. -/
def handleMakePayment (s : Store) (requestId updateId : Nat) (amount : Rat) :
    Store × Bool :=
  let r := postPayment s.payments
    { user_id := none, merchant_id := none, order_id := none, amount := some amount,
      payment_method := none, payment_type := none, status := none, transaction_id := none }
  ({ s with payments := r.2 }, true)

/-- `filteredStatuses` (TimelineUpdateForm.tsx:43-48): the option list offered
to the designer, with the statuses already present in the timeline removed. -/
def filteredStatuses (availableStatuses existingStatuses : List String) : List String :=
  availableStatuses.filter fun st => !(existingStatuses.contains st)

/-- Number of proposals of a request stored with the accepted status
(the backend enum spells it "Accepted"). -/
def countAccepted (db : List ProposalRow) (rid : Nat) : Nat :=
  (db.filter fun p => p.request_id == rid && p.status == "Accepted").length

/-- Number of non-rejected proposals a designer has on a request
(the backend enum spells the rejected status "Cancelled"). -/
def countNonRejectedBy (db : List ProposalRow) (rid did : Nat) : Nat :=
  (db.filter fun p =>
    p.request_id == rid && p.merchant_id == did && p.status != "Cancelled").length

/-! ### Concrete stores used by the theorems -/

/-- A store with one assigned request (backend status "Accepted") still holding
a pending proposal by designer 7. -/
def storeAssignedPending : Store :=
  { proposals := [{ proposal_id := 5, request_id := 1, merchant_id := 7,
                    price := 100, status := "Pending" }],
    requests := [{ request_id := 1, user_id := 2, status := "Accepted",
                   description := "gown", design_images := [], due_date := "",
                   priority := "normal", updated_at := 0 }],
    chats := [],
    payments := [] }

/-- A store with one assigned request whose proposal is accepted. -/
def storeAssigned : Store :=
  { proposals := [{ proposal_id := 5, request_id := 1, merchant_id := 7,
                    price := 100, status := "Accepted" }],
    requests := [{ request_id := 1, user_id := 2, status := "Accepted",
                   description := "gown", design_images := [], due_date := "",
                   priority := "normal", updated_at := 0 }],
    chats := [],
    payments := [] }

/-- A store in which users 1 and 2 have no accepted-proposal relationship
(there are no proposals at all). -/
def storeNoRelation : Store :=
  { proposals := [],
    requests := [{ request_id := 1, user_id := 1, status := "Pending",
                   description := "dress", design_images := [], due_date := "",
                   priority := "normal", updated_at := 0 }],
    chats := [],
    payments := [] }

/-- One pending proposal row, the target of the update-endpoint theorems. -/
def storePending : List ProposalRow :=
  [{ proposal_id := 1, request_id := 1, merchant_id := 7, price := 100, status := "Pending" }]

/-- Proposal table after designer 701 posts a pending proposal on request 1. -/
def twoAcceptedDb1 : List ProposalRow :=
  (postDesignerProposal [] 1
    { request_id := some 1, merchant_id := some 701, price := some 100, status := none }).2

/-- ... after designer 702 posts a second pending proposal on request 1. -/
def twoAcceptedDb2 : List ProposalRow :=
  (postDesignerProposal twoAcceptedDb1 2
    { request_id := some 1, merchant_id := some 702, price := some 120, status := none }).2

/-- ... after proposal 1 is updated to "Accepted" through the endpoint. -/
def twoAcceptedDb3 : List ProposalRow :=
  (putDesignerProposal twoAcceptedDb2 1 { price := none, status := some "Accepted" }).2

/-- ... after proposal 2 is also updated to "Accepted" through the endpoint. -/
def twoAcceptedDb4 : List ProposalRow :=
  (putDesignerProposal twoAcceptedDb3 2 { price := none, status := some "Accepted" }).2

/-- First of two identical proposal submissions by designer 7 on request 1. -/
def dupPost1 : Http × List ProposalRow :=
  postDesignerProposal [] 1
    { request_id := some 1, merchant_id := some 7, price := some 100, status := none }

/-- Second, identical submission by the same designer on the same request. -/
def dupPost2 : Http × List ProposalRow :=
  postDesignerProposal dupPost1.2 2
    { request_id := some 1, merchant_id := some 7, price := some 100, status := none }

/-- A timeline already containing a "stitched" stage for request 1. -/
def timelineStitched : List TimelineRow :=
  [{ requestId := 1, status := "stitched", message := "stitching done", timestamp := 2,
     paymentRequired := true, paymentAmount := some 25, paymentStatus := "pending" }]

/-- A timeline of request 1 holding only the "assigned" stage. -/
def timelineAssigned : List TimelineRow :=
  [{ requestId := 1, status := "assigned", message := "order assigned", timestamp := 1,
     paymentRequired := false, paymentAmount := none, paymentStatus := "not_required" }]

/-! ### Helper lemmas -/

/-- The proposal-update endpoint rejects the lowercase status "accepted" that
the client accept handler sends, leaving the table untouched. -/
theorem putDesignerProposal_lowercase_accepted (db : List ProposalRow) (pid : Nat) :
    putDesignerProposal db pid { price := none, status := some "accepted" } =
      (Http.badRequest, db) := by
  unfold putDesignerProposal
  rw [if_pos]
  exact ⟨by decide, by decide⟩

/-! ### Claim theorems -/

/-- C1: the claim says a successful `acceptProposal` atomically accepts the
target, rejects every sibling and assigns the request.  In the code the accept
flow can never succeed and never changes any server state: the PUT sends the
lowercase status "accepted", which `PUT /api/designer-proposals` rejects with
BadRequest before touching the row, so the handler aborts; sibling rejection
only ever happens in React local state, and the follow-up request update sends
the status "assigned", which the request endpoint's whitelist also rejects. -/
theorem acceptProposal_never_persists (s : Store) (clientProposals : List ProposalRow)
    (pid rid now : Nat) :
    handleAcceptProposal s clientProposals pid rid now = (s, false) := by
  unfold handleAcceptProposal
  rw [putDesignerProposal_lowercase_accepted]
  rfl

/-- C2: the claim says at most one proposal per request is ever accepted, and
every operation preserves that.  The endpoints enforce nothing: starting from
an empty table, two POSTs then two PUTs — each reported successful — leave two
proposals of request 1 both stored with status "Accepted". -/
theorem twoAcceptedProposalsReachable :
    (postDesignerProposal [] 1
      { request_id := some 1, merchant_id := some 701, price := some 100, status := none }).1
        = Http.created ∧
    (postDesignerProposal twoAcceptedDb1 2
      { request_id := some 1, merchant_id := some 702, price := some 120, status := none }).1
        = Http.created ∧
    (putDesignerProposal twoAcceptedDb2 1 { price := none, status := some "Accepted" }).1
        = Http.ok ∧
    (putDesignerProposal twoAcceptedDb3 2 { price := none, status := some "Accepted" }).1
        = Http.ok ∧
    countAccepted twoAcceptedDb4 1 = 2 := by
  decide

/-- C3: the claim says a second proposal by the same designer on the same open
request fails with ConflictError and creates nothing.  The create endpoint has
no uniqueness (or open-request) check: the second identical POST succeeds and a
second non-rejected proposal row is stored.  The client-side handler, for its
part, blocks resubmission with a toast and no error object at all — it reports
failure without any ConflictError and never reaches the backend. -/
theorem duplicateProposalCreated :
    dupPost1.1 = Http.created ∧
    dupPost2.1 = Http.created ∧
    countNonRejectedBy dupPost2.2 1 7 = 2 ∧
    handleSubmitProposal { proposals := dupPost1.2, requests := [], chats := [], payments := [] }
        dupPost1.2 7 1 100 2 =
      ({ proposals := dupPost1.2, requests := [], chats := [], payments := [] }, false) := by
  decide

/-- C4: the claim says accepting a proposal of a non-open request fails with
ConflictError and changes nothing.  The update endpoint never consults the
request: on a store whose request is already assigned it accepts the PUT with
status "Accepted" and mutates the proposal row (no ConflictError); the client
accept flow on the same store fails — but with BadRequest from the lowercase
status, not ConflictError, and regardless of the request's state. -/
theorem acceptOnAssignedRequest_notRejected :
    putDesignerProposal storeAssignedPending.proposals 5
        { price := none, status := some "Accepted" } =
      (Http.ok, [{ proposal_id := 5, request_id := 1, merchant_id := 7,
                   price := 100, status := "Accepted" }]) ∧
    handleAcceptProposal storeAssignedPending storeAssignedPending.proposals 5 1 1 =
      (storeAssignedPending, false) := by
  decide

/-- C5: adding a timeline update whose status already appears in the timeline
of that request fails with ConflictError and the stored update list is
unchanged (the spec-modelled `addUpdate` returns an error and no new list). -/
theorem addUpdate_duplicateStage_conflict (tl : List TimelineRow) (rid : Nat)
    (st msg : String) (paymentRequired : Bool) (paymentAmount : Option Rat) (now : Nat)
    (h : st ∈ timelineStatuses tl rid) :
    addUpdate tl rid st msg paymentRequired paymentAmount now =
      Except.error CoreError.conflictError := by
  unfold addUpdate
  rw [if_pos h]

/-- Witness for C5 at a concrete timeline already holding "stitched". -/
theorem addUpdate_duplicateStage_conflict_witness :
    addUpdate timelineStitched 1 "stitched" "again" true (some 25) 3 =
      Except.error CoreError.conflictError :=
  addUpdate_duplicateStage_conflict timelineStitched 1 "stitched" "again" true (some 25) 3
    (by decide)

/-- C6: the claim says appending a "delivered" update flips the request to
completed, observably for all subsequent reads.  In the code the completion
write sends the lowercase status "completed", which
`PUT /api/customization-requests` rejects with BadRequest (its whitelist is
"Pending"/"Accepted"/"Completed"), so the stored request keeps its previous
status: the delivered row is appended but the store is returned unchanged. -/
theorem deliveredUpdate_doesNotCompleteRequest :
    handleAddTimelineUpdateRD storeAssigned timelineAssigned 1 "delivered" "done" 9 =
      (storeAssigned,
       timelineAssigned ++
         [{ requestId := 1, status := "delivered", message := "done", timestamp := 9,
            paymentRequired := false, paymentAmount := none,
            paymentStatus := "not_required" }]) ∧
    putCustomizationRequest storeAssigned.requests 1
        { status := some "completed", description := none, design_images := none,
          due_date := none, priority := none } 9 =
      (Http.badRequest, storeAssigned.requests) := by
  decide

/-- C7: the claim says `sendMessage` between users with no accepted-proposal
relationship fails with AuthorizationError and persists nothing.  The chat
endpoint performs no authorization: with an empty proposal table (so
`canMessage 1 2` is false) the POST succeeds and the message row is stored. -/
theorem unauthorizedMessagePersisted :
    canMessage storeNoRelation 1 2 = false ∧
    postChat storeNoRelation.chats
        { sender_id := some 1, receiver_id := some 2, message := some "hello", status := none } =
      (Http.created,
       [{ sender_id := 1, receiver_id := 2, message := "hello", status := "sent" }]) := by
  decide

/-- C8 counterexample: at acceptedPrice 100 the intermediate stage "dyed"
carries no payment at all (the claim says every intermediate milestone carries
0.25·P), and the per-stage amounts generated across the full timeline sum to
75, not 100. -/
theorem stagePayments_do_not_sum_to_price :
    manageOrderStagePayment (some 100) "dyed" = (false, none) ∧
    manageOrderGeneratedTotal (some 100) = 75 ∧
    (75 : Rat) ≠ 100 := by
  refine ⟨by decide, ?_, by norm_num⟩
  simp [manageOrderGeneratedTotal, manageOrderStages, manageOrderStagePayment]
  norm_num

/-- C8 amended: only the "stitched" and "fitting" milestone stages carry a
default payment of 0.25·P, the "delivered" stage carries another 0.25·P, the
remaining stages ("assigned", "dyed", "out_for_delivery") carry none, so the
generated per-stage amounts sum to 0.75·P; the displayed payment-schedule card
separately lists four 25% lines summing to P, but no timeline stage generates
its "initial payment" line. -/
theorem stagePayments_sum_to_three_quarters (price : Rat) :
    manageOrderStagePayment (some price) "stitched" = (true, some (price * (1 / 4))) ∧
    manageOrderStagePayment (some price) "fitting" = (true, some (price * (1 / 4))) ∧
    manageOrderStagePayment (some price) "delivered" = (true, some (price * (1 / 4))) ∧
    manageOrderStagePayment (some price) "assigned" = (false, none) ∧
    manageOrderStagePayment (some price) "dyed" = (false, none) ∧
    manageOrderStagePayment (some price) "out_for_delivery" = (false, none) ∧
    manageOrderGeneratedTotal (some price) = 3 / 4 * price ∧
    (paymentScheduleCard (some price)).sum = price := by
  refine ⟨?_, ?_, ?_, ?_, ?_, ?_, ?_, ?_⟩ <;>
    simp [manageOrderStagePayment, manageOrderGeneratedTotal, manageOrderStages,
      paymentScheduleCard] <;>
    ring

/-- C9: the claim says `recordPayment` rejects a mismatched amount with
ValidationError and on success marks the update paid.  The payments endpoint
never reads a timeline update: the client's payment call (which omits the
generic fields the endpoint requires) is rejected with BadRequest yet reported
as a success — a silent failure that stores no Payment and flips no
paymentStatus — while a direct POST carrying the required generic fields and an
amount matching no timeline update succeeds without any validation. -/
theorem paymentAmount_never_validated :
    handleMakePayment storeAssigned 1 1 25 = (storeAssigned, true) ∧
    postPayment []
        { user_id := some 2, merchant_id := some 7, order_id := some 1, amount := some 999,
          payment_method := some "card", payment_type := some "Customer Payment",
          status := none, transaction_id := none } =
      (Http.created,
       [{ user_id := 2, merchant_id := 7, order_id := 1, amount := 999,
          payment_method := "card", payment_type := "Customer Payment",
          status := "Pending", transaction_id := none }]) := by
  decide

/-- C10 counterexample: a call that supplies the status field with the empty
string — not one of "Pending"/"Accepted"/"Cancelled" — is not rejected: the
truthiness guard skips validation, and a supplied price still changes the
row. -/
theorem emptyStatus_not_rejected :
    putDesignerProposal storePending 1 { price := some 50, status := some "" } =
      (Http.ok, [{ proposal_id := 1, request_id := 1, merchant_id := 7,
                   price := 50, status := "Pending" }]) := by
  decide

/-- C10 amended: for every call supplying a non-empty status, the update is
applied only if the status is exactly one of "Pending", "Accepted",
"Cancelled"; any other non-empty value — including the lowercase "accepted"
and "rejected" the client handlers send — is rejected with BadRequest and the
proposal table is left unchanged.  An empty-string status is instead ignored
by the truthiness guard. -/
theorem nonEmptyStatus_whitelisted (db : List ProposalRow) (pid : Nat)
    (price : Option Rat) (st : String) (hne : st ≠ "") :
    (st ∉ proposalStatusWhitelist →
      putDesignerProposal db pid { price := price, status := some st } =
        (Http.badRequest, db)) ∧
    ((putDesignerProposal db pid { price := price, status := some st }).1 ≠ Http.badRequest →
      st ∈ proposalStatusWhitelist) := by
  have htr : jsTruthyStr (some st) = true := by
    simp [jsTruthyStr, hne]
  have hbad : st ∉ proposalStatusWhitelist →
      putDesignerProposal db pid { price := price, status := some st } =
        (Http.badRequest, db) := by
    intro hw
    unfold putDesignerProposal
    rw [if_pos ⟨htr, hw⟩]
  refine ⟨hbad, ?_⟩
  intro hok
  by_contra hw
  rw [hbad hw] at hok
  exact hok rfl

/-- Witness for C10 at the lowercase "accepted" the client accept handler
sends: the call is rejected and the table is unchanged. -/
theorem nonEmptyStatus_whitelisted_witness :
    putDesignerProposal storePending 1 { price := none, status := some "accepted" } =
      (Http.badRequest, storePending) :=
  (nonEmptyStatus_whitelisted storePending 1 none "accepted" (by decide)).1 (by decide)

end StyleSymphony
